import Mathlib

/-!
Shallow embedding of the testimonials carousel widget
(`src/js/performance.js`, the `testimonialCarousel` IIFE).

The module-level `state` and `elements` objects, together with the
browser's interval-timer table, are modelled as one record `Carousel`.
Timer ids issued by `setInterval` are modelled as naturals starting at 1
(browser timer ids are positive, so the JS truthiness test
`if (state.autoPlayTimer)` corresponds to `Option.isSome`); each live
interval remembers its id, its next firing instant and its period.
Times (`Date.now()`, deadlines) are integers in milliseconds; card
indices are integers, as in JS.
-/

/-- CONFIG.AUTO_PLAY_INTERVAL (ms). -/
def AUTO_PLAY_INTERVAL : ℤ := 5000

/-- CONFIG.TRANSITION_DURATION (ms). -/
def TRANSITION_DURATION : ℤ := 300

/-- CONFIG.SWIPE_THRESHOLD (px). -/
def SWIPE_THRESHOLD : ℤ := 50

/-- CONFIG.TOUCH_ANGLE_THRESHOLD (degrees). -/
def TOUCH_ANGLE_THRESHOLD : ℝ := 30

/-- CONFIG.KEYBOARD_REPEAT_DELAY (ms). -/
def KEYBOARD_REPEAT_DELAY : ℤ := 300

/-- The attributes of one testimonial card that the carousel mutates:
the `testimonial-card--active` class, the `aria-hidden` attribute
(present-and-true or absent), the `tabindex` attribute (absent before the
carousel first touches the card), and the customer name text used for
announcements. -/
structure Card where
  activeClass : Bool
  ariaHidden : Bool
  tabindex : Option ℤ
  name : String
deriving DecidableEq

/-- The attributes of one indicator dot that the carousel mutates. -/
structure Indicator where
  activeClass : Bool
  ariaSelected : Bool
deriving DecidableEq

/-- One live `setInterval` registration: its id, the instant it next
fires, and its repetition period. -/
structure TimerInterval where
  id : ℕ
  nextFire : ℤ
  period : ℤ
deriving DecidableEq

/-- The whole mutable world of the widget: the `state` object, the
mutable attributes of `elements`, and the browser timer table. -/
structure Carousel where
  currentIndex : ℤ
  totalCards : ℤ
  isAutoPlaying : Bool
  autoPlayTimer : Option ℕ
  lastKeyPressTime : ℤ
  touchStartX : ℤ
  touchStartY : ℤ
  touchStartTime : ℤ
  isTransitioning : Bool
  cards : List Card
  indicators : List Indicator
  prevDisabled : Bool
  nextDisabled : Bool
  liveRegion : String
  nextTimerId : ℕ
  intervals : List TimerInterval
deriving DecidableEq

/-- `clearInterval(t)`: removes the interval whose id is `t`;
`clearInterval(null)` is a no-op. -/
def clearIntervalList : Option ℕ → List TimerInterval → List TimerInterval
  | none, l => l
  | some t, l => l.filter (fun iv => iv.id ≠ t)

/-- `pauseAutoPlay` (performance.js:893): early-returns when
`isAutoPlaying` is false, otherwise clears the interval and nulls the
handle.  It never writes `isAutoPlaying`. -/
def pauseAutoPlay (s : Carousel) : Carousel :=
  if !s.isAutoPlaying then s
  else
    { s with
      intervals := clearIntervalList s.autoPlayTimer s.intervals
      autoPlayTimer := none }

/-- `resumeAutoPlay` (performance.js:903): early-returns when a timer
handle is present, otherwise schedules a fresh interval a full
`AUTO_PLAY_INTERVAL` from `now`. -/
def resumeAutoPlay (s : Carousel) (now : ℤ) : Carousel :=
  if s.autoPlayTimer.isSome then s
  else
    { s with
      intervals :=
        s.intervals ++ [⟨s.nextTimerId, now + AUTO_PLAY_INTERVAL, AUTO_PLAY_INTERVAL⟩]
      autoPlayTimer := some s.nextTimerId
      nextTimerId := s.nextTimerId + 1 }

/-- `startAutoPlay` (performance.js:881): early-returns when
`isAutoPlaying` is already true, otherwise sets the flag and schedules
the interval. -/
def startAutoPlay (s : Carousel) (now : ℤ) : Carousel :=
  if s.isAutoPlaying then s
  else
    { s with
      isAutoPlaying := true
      intervals :=
        s.intervals ++ [⟨s.nextTimerId, now + AUTO_PLAY_INTERVAL, AUTO_PLAY_INTERVAL⟩]
      autoPlayTimer := some s.nextTimerId
      nextTimerId := s.nextTimerId + 1 }

/-- `resetAutoPlay` (performance.js:914): pause then resume. -/
def resetAutoPlay (s : Carousel) (now : ℤ) : Carousel :=
  resumeAutoPlay (pauseAutoPlay s) now

/-- The card update inside `updateCarousel`'s `forEach` (performance.js:831):
the card at position `index` gains the active class, loses `aria-hidden`
and becomes focusable; every other card is hidden.  `i` is the running
list position. -/
def setActiveCards (index : ℤ) : ℤ → List Card → List Card
  | _, [] => []
  | i, c :: cs =>
      (if i = index then
        { c with activeClass := true, ariaHidden := false, tabindex := some 0 }
      else
        { c with activeClass := false, ariaHidden := true, tabindex := some (-1) })
      :: setActiveCards index (i + 1) cs

/-- The indicator update inside `updateCarousel` (performance.js:845). -/
def setActiveIndicators (index : ℤ) : ℤ → List Indicator → List Indicator
  | _, [] => []
  | i, d :: ds =>
      (if i = index then { d with activeClass := true, ariaSelected := true }
       else { d with activeClass := false, ariaSelected := false })
      :: setActiveIndicators index (i + 1) ds

/-- `announceCurrentTestimonial` (performance.js:871): writes the live
region from the current card's name, falling back to "Customer" when the
name node is missing or empty. -/
def announceCurrentTestimonial (s : Carousel) : Carousel :=
  let customerName :=
    match s.cards[s.currentIndex.toNat]? with
    | some c => if c.name = "" then "Customer" else c.name
    | none => "Customer"
  { s with
    liveRegion :=
      "Showing testimonial " ++ toString (s.currentIndex + 1) ++ " of " ++
        toString s.totalCards ++ " from " ++ customerName }

/-- `updateCarousel(index, animate)` (performance.js:826): sets
`isTransitioning` and `currentIndex`, rewrites card and indicator
attributes, re-enables both buttons and announces.  The trailing
`setTimeout` that clears `isTransitioning` (after `TRANSITION_DURATION`
or 0 ms depending on `animate`) is a separate event; it is modelled by
`settleTransition` below. -/
def updateCarousel (s : Carousel) (index : ℤ) (animate : Bool) : Carousel :=
  let _ := animate
  announceCurrentTestimonial
    { s with
      isTransitioning := true
      currentIndex := index
      cards := setActiveCards index 0 s.cards
      indicators := setActiveIndicators index 0 s.indicators
      prevDisabled := false
      nextDisabled := false }

/-- The `setTimeout` callback scheduled by `updateCarousel`
(performance.js:863): clears the transition flag. -/
def settleTransition (s : Carousel) : Carousel :=
  { s with isTransitioning := false }

/-- The wraparound block of `navigateTo` (performance.js:808-813):
a single-step wrap, not modular arithmetic. -/
def wrapIndex (index total : ℤ) : ℤ :=
  if index < 0 then total - 1
  else if index ≥ total then 0
  else index

/-- `navigateTo(index)` (performance.js:804): no-op while transitioning,
wrap, no-op when the wrapped target is current, otherwise update and
reset auto-play.  `now` is `Date.now()` at the moment of the call, used
for the rescheduled interval's deadline. -/
def navigateTo (s : Carousel) (index now : ℤ) : Carousel :=
  if s.isTransitioning then s
  else
    let newIndex := wrapIndex index s.totalCards
    if newIndex = s.currentIndex then s
    else resetAutoPlay (updateCarousel s newIndex true) now

/-- `handlePrevClick` (performance.js:661). -/
def handlePrevClick (s : Carousel) (now : ℤ) : Carousel :=
  navigateTo s (s.currentIndex - 1) now

/-- `handleNextClick` (performance.js:668). -/
def handleNextClick (s : Carousel) (now : ℤ) : Carousel :=
  navigateTo s (s.currentIndex + 1) now

/-- `handleIndicatorClick` (performance.js:676): `idx?` is the parsed
`data-index` of the clicked indicator, `none` when the click missed an
indicator or `parseInt` produced `NaN`. -/
def handleIndicatorClick (s : Carousel) (idx? : Option ℤ) (now : ℤ) : Carousel :=
  match idx? with
  | some index => navigateTo s index now
  | none => s

/-- The keys `handleKeyDown` distinguishes. -/
inductive Key where
  | arrowLeft
  | arrowRight
  | homeKey
  | endKey
  | other
deriving DecidableEq

/-- `handleKeyDown` (performance.js:690): debounced by
`KEYBOARD_REPEAT_DELAY`; Left/Right move by one, Home/End jump to the
ends; a handled key records `lastKeyPressTime := now`. -/
def handleKeyDown (s : Carousel) (key : Key) (now : ℤ) : Carousel :=
  if now - s.lastKeyPressTime < KEYBOARD_REPEAT_DELAY then s
  else
    match key with
    | .arrowLeft => { navigateTo s (s.currentIndex - 1) now with lastKeyPressTime := now }
    | .arrowRight => { navigateTo s (s.currentIndex + 1) now with lastKeyPressTime := now }
    | .homeKey => { navigateTo s 0 now with lastKeyPressTime := now }
    | .endKey => { navigateTo s (s.totalCards - 1) now with lastKeyPressTime := now }
    | .other => s

/-- `handleTouchStart` (performance.js:728): ignores multi-touch,
otherwise records the single touch's coordinates and the time. -/
def handleTouchStart (s : Carousel) (touches : List (ℤ × ℤ)) (now : ℤ) : Carousel :=
  match touches with
  | [(x, y)] =>
      { s with touchStartX := x, touchStartY := y, touchStartTime := now }
  | _ => s

/-- The swipe angle computed by `handleTouchEnd` (performance.js:766):
`Math.abs(Math.atan2(deltaY, deltaX) * 180 / Math.PI)`, with `atan2`
rendered as `Complex.arg ⟨deltaX, deltaY⟩` (same quadrant convention and
range, `arg 0 = 0` matching `atan2(0, 0) = 0`). -/
noncomputable def swipeAngle (deltaX deltaY : ℤ) : ℝ :=
  |Complex.arg ⟨(deltaX : ℝ), (deltaY : ℝ)⟩| * 180 / Real.pi

/-- The horizontal-swipe test of `handleTouchEnd` (performance.js:769):
`angle < CONFIG.TOUCH_ANGLE_THRESHOLD || angle > 180 - CONFIG.TOUCH_ANGLE_THRESHOLD`. -/
def isHorizontalSwipe (deltaX deltaY : ℤ) : Prop :=
  swipeAngle deltaX deltaY < TOUCH_ANGLE_THRESHOLD ∨
    swipeAngle deltaX deltaY > 180 - TOUCH_ANGLE_THRESHOLD

/-- The swipe-acceptance test of `handleTouchEnd` (performance.js:773):
horizontal enough, far enough, fast enough. -/
def swipeAccepted (deltaX deltaY deltaTime : ℤ) : Prop :=
  isHorizontalSwipe deltaX deltaY ∧ SWIPE_THRESHOLD < |deltaX| ∧ deltaTime < 500

open Classical in
/-- The `navigateTo` call issued by `handleTouchEnd` (performance.js:756):
`none` when the handler bails out on the `!state.touchStartX` guard or
rejects the swipe, otherwise the target index passed to `navigateTo`.
Note the guard makes a gesture that started at `clientX = 0`
indistinguishable from the cleared sentinel. -/
noncomputable def handleTouchEndCall (s : Carousel) (endX endY now : ℤ) : Option ℤ :=
  if s.touchStartX = 0 then none
  else
    let deltaX := endX - s.touchStartX
    let deltaTime := now - s.touchStartTime
    if swipeAccepted deltaX (endY - s.touchStartY) deltaTime then
      if deltaX > 0 then some (s.currentIndex - 1) else some (s.currentIndex + 1)
    else none

/-- `handleTouchEnd` (performance.js:756) as a state transformer: bails
out immediately (touch fields untouched) on the `!state.touchStartX`
guard, otherwise performs the accepted navigation (if any) and clears
the touch fields. -/
noncomputable def handleTouchEnd (s : Carousel) (endX endY now : ℤ) : Carousel :=
  if s.touchStartX = 0 then s
  else
    let afterNav :=
      match handleTouchEndCall s endX endY now with
      | some target => navigateTo s target now
      | none => s
    { afterNav with touchStartX := 0, touchStartY := 0, touchStartTime := 0 }

/-- What `init` (performance.js:508) finds in the static page: whether
`.testimonials` and `.testimonials__grid` exist, and the name text of
each `.testimonial-card` found in the grid. -/
structure Page where
  hasContainer : Bool
  hasGrid : Bool
  cardNames : List String
deriving DecidableEq

/-- A card as it sits in the static page before the carousel touches it:
no active class, no `aria-hidden`, no `tabindex`. -/
def initialCard (n : String) : Card :=
  { activeClass := false, ariaHidden := false, tabindex := none, name := n }

/-- `createIndicators` (performance.js:586): one dot per card,
`aria-selected` true only on the first, active class not yet set. -/
def initialIndicators (total : ℕ) : List Indicator :=
  (List.range total).map fun i => { activeClass := false, ariaSelected := i == 0 }

/-- `init` (performance.js:508): `none` models the early returns (no
container, no grid, fewer than two cards) in which nothing is mutated
and the static grid layout stays; otherwise the controls are built,
card 0 is activated without animation and auto-play starts. -/
def init (p : Page) (now : ℤ) : Option Carousel :=
  if !p.hasContainer then none
  else if !p.hasGrid then none
  else if p.cardNames.length ≤ 1 then none
  else
    let s0 : Carousel :=
      { currentIndex := 0
        totalCards := (p.cardNames.length : ℤ)
        isAutoPlaying := false
        autoPlayTimer := none
        lastKeyPressTime := 0
        touchStartX := 0
        touchStartY := 0
        touchStartTime := 0
        isTransitioning := false
        cards := p.cardNames.map initialCard
        indicators := initialIndicators p.cardNames.length
        prevDisabled := false
        nextDisabled := false
        liveRegion := ""
        nextTimerId := 1
        intervals := [] }
    some (startAutoPlay (updateCarousel s0 0 false) now)

/-- One event-loop step of the initialized widget: any handler the page
can fire, the transition-settling timeout, or an auto-play tick (which
is `navigateTo (currentIndex + 1)`, an instance of `nav`). -/
inductive Step : Carousel → Carousel → Prop where
  | nav (s : Carousel) (index now : ℤ) : Step s (navigateTo s index now)
  | settle (s : Carousel) : Step s (settleTransition s)
  | pause (s : Carousel) : Step s (pauseAutoPlay s)
  | resume (s : Carousel) (now : ℤ) : Step s (resumeAutoPlay s now)
  | start (s : Carousel) (now : ℤ) : Step s (startAutoPlay s now)
  | resize (s : Carousel) : Step s (updateCarousel s s.currentIndex false)
  | prevClick (s : Carousel) (now : ℤ) : Step s (handlePrevClick s now)
  | nextClick (s : Carousel) (now : ℤ) : Step s (handleNextClick s now)
  | indicatorClick (s : Carousel) (idx? : Option ℤ) (now : ℤ) :
      Step s (handleIndicatorClick s idx? now)
  | key (s : Carousel) (k : Key) (now : ℤ) : Step s (handleKeyDown s k now)
  | touchStart (s : Carousel) (touches : List (ℤ × ℤ)) (now : ℤ) :
      Step s (handleTouchStart s touches now)
  | touchEnd (s : Carousel) (endX endY now : ℤ) : Step s (handleTouchEnd s endX endY now)

/-! Section: Field-preservation lemmas -/

@[simp] lemma announce_currentIndex (s : Carousel) :
    (announceCurrentTestimonial s).currentIndex = s.currentIndex := rfl

@[simp] lemma announce_totalCards (s : Carousel) :
    (announceCurrentTestimonial s).totalCards = s.totalCards := rfl

@[simp] lemma announce_cards (s : Carousel) :
    (announceCurrentTestimonial s).cards = s.cards := rfl

@[simp] lemma updateCarousel_currentIndex (s : Carousel) (i : ℤ) (a : Bool) :
    (updateCarousel s i a).currentIndex = i := rfl

@[simp] lemma updateCarousel_totalCards (s : Carousel) (i : ℤ) (a : Bool) :
    (updateCarousel s i a).totalCards = s.totalCards := rfl

@[simp] lemma updateCarousel_cards (s : Carousel) (i : ℤ) (a : Bool) :
    (updateCarousel s i a).cards = setActiveCards i 0 s.cards := rfl

@[simp] lemma updateCarousel_isAutoPlaying (s : Carousel) (i : ℤ) (a : Bool) :
    (updateCarousel s i a).isAutoPlaying = s.isAutoPlaying := rfl

@[simp] lemma updateCarousel_autoPlayTimer (s : Carousel) (i : ℤ) (a : Bool) :
    (updateCarousel s i a).autoPlayTimer = s.autoPlayTimer := rfl

@[simp] lemma updateCarousel_intervals (s : Carousel) (i : ℤ) (a : Bool) :
    (updateCarousel s i a).intervals = s.intervals := rfl

@[simp] lemma updateCarousel_nextTimerId (s : Carousel) (i : ℤ) (a : Bool) :
    (updateCarousel s i a).nextTimerId = s.nextTimerId := rfl

@[simp] lemma updateCarousel_isTransitioning (s : Carousel) (i : ℤ) (a : Bool) :
    (updateCarousel s i a).isTransitioning = true := rfl

@[simp] lemma settleTransition_currentIndex (s : Carousel) :
    (settleTransition s).currentIndex = s.currentIndex := rfl

@[simp] lemma settleTransition_totalCards (s : Carousel) :
    (settleTransition s).totalCards = s.totalCards := rfl

@[simp] lemma settleTransition_cards (s : Carousel) :
    (settleTransition s).cards = s.cards := rfl

@[simp] lemma settleTransition_isAutoPlaying (s : Carousel) :
    (settleTransition s).isAutoPlaying = s.isAutoPlaying := rfl

@[simp] lemma pauseAutoPlay_currentIndex (s : Carousel) :
    (pauseAutoPlay s).currentIndex = s.currentIndex := by
  unfold pauseAutoPlay; split <;> rfl

@[simp] lemma pauseAutoPlay_totalCards (s : Carousel) :
    (pauseAutoPlay s).totalCards = s.totalCards := by
  unfold pauseAutoPlay; split <;> rfl

@[simp] lemma pauseAutoPlay_cards (s : Carousel) :
    (pauseAutoPlay s).cards = s.cards := by
  unfold pauseAutoPlay; split <;> rfl

@[simp] lemma pauseAutoPlay_isAutoPlaying (s : Carousel) :
    (pauseAutoPlay s).isAutoPlaying = s.isAutoPlaying := by
  unfold pauseAutoPlay; split <;> rfl

@[simp] lemma pauseAutoPlay_isTransitioning (s : Carousel) :
    (pauseAutoPlay s).isTransitioning = s.isTransitioning := by
  unfold pauseAutoPlay; split <;> rfl

@[simp] lemma pauseAutoPlay_nextTimerId (s : Carousel) :
    (pauseAutoPlay s).nextTimerId = s.nextTimerId := by
  unfold pauseAutoPlay; split <;> rfl

@[simp] lemma resumeAutoPlay_currentIndex (s : Carousel) (now : ℤ) :
    (resumeAutoPlay s now).currentIndex = s.currentIndex := by
  unfold resumeAutoPlay; split <;> rfl

@[simp] lemma resumeAutoPlay_totalCards (s : Carousel) (now : ℤ) :
    (resumeAutoPlay s now).totalCards = s.totalCards := by
  unfold resumeAutoPlay; split <;> rfl

@[simp] lemma resumeAutoPlay_cards (s : Carousel) (now : ℤ) :
    (resumeAutoPlay s now).cards = s.cards := by
  unfold resumeAutoPlay; split <;> rfl

@[simp] lemma resumeAutoPlay_isAutoPlaying (s : Carousel) (now : ℤ) :
    (resumeAutoPlay s now).isAutoPlaying = s.isAutoPlaying := by
  unfold resumeAutoPlay; split <;> rfl

@[simp] lemma resumeAutoPlay_isTransitioning (s : Carousel) (now : ℤ) :
    (resumeAutoPlay s now).isTransitioning = s.isTransitioning := by
  unfold resumeAutoPlay; split <;> rfl

@[simp] lemma resetAutoPlay_currentIndex (s : Carousel) (now : ℤ) :
    (resetAutoPlay s now).currentIndex = s.currentIndex := by
  simp [resetAutoPlay]

@[simp] lemma resetAutoPlay_totalCards (s : Carousel) (now : ℤ) :
    (resetAutoPlay s now).totalCards = s.totalCards := by
  simp [resetAutoPlay]

@[simp] lemma resetAutoPlay_cards (s : Carousel) (now : ℤ) :
    (resetAutoPlay s now).cards = s.cards := by
  simp [resetAutoPlay]

@[simp] lemma resetAutoPlay_isAutoPlaying (s : Carousel) (now : ℤ) :
    (resetAutoPlay s now).isAutoPlaying = s.isAutoPlaying := by
  simp [resetAutoPlay]

@[simp] lemma startAutoPlay_currentIndex (s : Carousel) (now : ℤ) :
    (startAutoPlay s now).currentIndex = s.currentIndex := by
  unfold startAutoPlay; split <;> rfl

@[simp] lemma startAutoPlay_totalCards (s : Carousel) (now : ℤ) :
    (startAutoPlay s now).totalCards = s.totalCards := by
  unfold startAutoPlay; split <;> rfl

@[simp] lemma startAutoPlay_cards (s : Carousel) (now : ℤ) :
    (startAutoPlay s now).cards = s.cards := by
  unfold startAutoPlay; split <;> rfl

@[simp] lemma startAutoPlay_isAutoPlaying (s : Carousel) (now : ℤ) :
    (startAutoPlay s now).isAutoPlaying = true := by
  unfold startAutoPlay; split_ifs with h
  · exact h
  · rfl

lemma navigateTo_totalCards (s : Carousel) (i now : ℤ) :
    (navigateTo s i now).totalCards = s.totalCards := by
  unfold navigateTo
  split
  · rfl
  · dsimp only
    split
    · rfl
    · simp

lemma navigateTo_isAutoPlaying (s : Carousel) (i now : ℤ) :
    (navigateTo s i now).isAutoPlaying = s.isAutoPlaying := by
  unfold navigateTo
  split
  · rfl
  · dsimp only
    split
    · rfl
    · simp

/-! Section: The active-card invariant -/

/-- A card "carries the active marker": active class set, not
`aria-hidden`, `tabindex` 0. -/
def cardActiveMarker (c : Card) : Bool :=
  c.activeClass && !c.ariaHidden && decide (c.tabindex = some 0)

/-- The invariant of every state reachable from a successful `init`:
at least two cards, `totalCards` agreeing with the card list,
`currentIndex` a valid position, and exactly one card marked active. -/
def CarouselInv (s : Carousel) : Prop :=
  2 ≤ s.totalCards ∧ s.totalCards = (s.cards.length : ℤ) ∧
    0 ≤ s.currentIndex ∧ s.currentIndex < s.totalCards ∧
    s.cards.countP cardActiveMarker = 1

lemma setActiveCards_length (index : ℤ) (cs : List Card) :
    ∀ i : ℤ, (setActiveCards index i cs).length = cs.length := by
  induction cs with
  | nil => intro i; rfl
  | cons c cs ih => intro i; simp [setActiveCards, ih]

lemma countP_setActiveCards (index : ℤ) (cs : List Card) :
    ∀ i : ℤ, (setActiveCards index i cs).countP cardActiveMarker =
      if i ≤ index ∧ index < i + (cs.length : ℤ) then 1 else 0 := by
  induction cs with
  | nil =>
      intro i
      simp only [setActiveCards, List.countP_nil, List.length_nil]
      split_ifs with h
      · omega
      · rfl
  | cons c cs ih =>
      intro i
      by_cases h : i = index
      · subst h
        simp only [setActiveCards, if_pos rfl, List.countP_cons, ih, List.length_cons]
        simp only [cardActiveMarker]
        split_ifs <;> simp_all <;> omega
      · simp only [setActiveCards, if_neg h, List.countP_cons, ih, List.length_cons]
        simp only [cardActiveMarker]
        split_ifs <;> simp_all <;> omega

lemma wrapIndex_mem (index total : ℤ) (h : 2 ≤ total) :
    0 ≤ wrapIndex index total ∧ wrapIndex index total < total := by
  unfold wrapIndex; split_ifs <;> omega

lemma updateCarousel_inv (s : Carousel) (index : ℤ) (a : Bool)
    (h2 : 2 ≤ s.totalCards) (hlen : s.totalCards = (s.cards.length : ℤ))
    (h0 : 0 ≤ index) (h1 : index < s.totalCards) :
    CarouselInv (updateCarousel s index a) := by
  refine ⟨by simpa using h2, ?_, by simpa using h0, by simpa using h1, ?_⟩
  · simp [setActiveCards_length, hlen]
  · simp only [updateCarousel_cards, countP_setActiveCards]
    split_ifs with h
    · rfl
    · omega

lemma carouselInv_of_fields (s t : Carousel) (h : CarouselInv s)
    (e1 : t.totalCards = s.totalCards) (e2 : t.cards = s.cards)
    (e3 : t.currentIndex = s.currentIndex) : CarouselInv t := by
  unfold CarouselInv at h ⊢
  rw [e1, e2, e3]
  exact h

lemma navigateTo_inv (s : Carousel) (index now : ℤ) (h : CarouselInv s) :
    CarouselInv (navigateTo s index now) := by
  unfold navigateTo
  split
  · exact h
  · dsimp only
    split
    · exact h
    · obtain ⟨h2, hlen, _, _, _⟩ := h
      obtain ⟨hw0, hw1⟩ := wrapIndex_mem index s.totalCards h2
      refine carouselInv_of_fields _ _ (updateCarousel_inv s _ true h2 hlen hw0 hw1) ?_ ?_ ?_ <;> simp

lemma step_inv (s s' : Carousel) (hstep : Step s s') (h : CarouselInv s) :
    CarouselInv s' := by
  cases hstep with
  | nav index now => exact navigateTo_inv s index now h
  | settle => exact carouselInv_of_fields s _ h (by simp) (by simp) (by simp)
  | pause => exact carouselInv_of_fields s _ h (by simp) (by simp) (by simp)
  | resume now => exact carouselInv_of_fields s _ h (by simp) (by simp) (by simp)
  | start now => exact carouselInv_of_fields s _ h (by simp) (by simp) (by simp)
  | resize =>
      obtain ⟨h2, hlen, h0, h1, _⟩ := h
      exact updateCarousel_inv s _ false h2 hlen h0 h1
  | prevClick now => exact navigateTo_inv s _ now h
  | nextClick now => exact navigateTo_inv s _ now h
  | indicatorClick idx? now =>
      cases idx? with
      | some index => exact navigateTo_inv s index now h
      | none => exact h
  | key k now =>
      unfold handleKeyDown
      split
      · exact h
      · cases k <;>
          first
          | exact h
          | exact carouselInv_of_fields _ _ (navigateTo_inv s _ now h) rfl rfl rfl
  | touchStart touches now =>
      unfold handleTouchStart
      split
      · exact carouselInv_of_fields s _ h rfl rfl rfl
      · exact h
  | touchEnd endX endY now =>
      unfold handleTouchEnd
      split
      · exact h
      · dsimp only
        split
        · exact carouselInv_of_fields _ _ (navigateTo_inv s _ now h) rfl rfl rfl
        · exact carouselInv_of_fields s _ h rfl rfl rfl

lemma startAutoPlay_inv (s : Carousel) (now : ℤ) (h : CarouselInv s) :
    CarouselInv (startAutoPlay s now) :=
  carouselInv_of_fields s _ h (by simp) (by simp) (by simp)

lemma init_inv (p : Page) (now : ℤ) (s0 : Carousel)
    (hinit : init p now = some s0) : CarouselInv s0 := by
  unfold init at hinit
  split_ifs at hinit with h1 h2 h3
  injection hinit with hEq
  subst hEq
  apply startAutoPlay_inv
  apply updateCarousel_inv
  · dsimp only; omega
  · dsimp only; simp
  · exact le_rfl
  · dsimp only; omega

/-! Section: Concrete states used by witnesses and counterexamples -/

/-- A two-card page. -/
def pageW : Page := { hasContainer := true, hasGrid := true, cardNames := ["Ana", "Ben"] }

/-- The pre-carousel state `init` builds for `pageW`. -/
def basePageW : Carousel :=
  { currentIndex := 0, totalCards := 2, isAutoPlaying := false, autoPlayTimer := none,
    lastKeyPressTime := 0, touchStartX := 0, touchStartY := 0, touchStartTime := 0,
    isTransitioning := false,
    cards := [initialCard "Ana", initialCard "Ben"],
    indicators := initialIndicators 2,
    prevDisabled := false, nextDisabled := false, liveRegion := "",
    nextTimerId := 1, intervals := [] }

/-- The state `init pageW 0` produces. -/
def carouselW : Carousel := startAutoPlay (updateCarousel basePageW 0 false) 0

/-- A three-card pre-carousel state. -/
def basePage3 : Carousel :=
  { currentIndex := 0, totalCards := 3, isAutoPlaying := false, autoPlayTimer := none,
    lastKeyPressTime := 0, touchStartX := 0, touchStartY := 0, touchStartTime := 0,
    isTransitioning := false,
    cards := [initialCard "Ana", initialCard "Ben", initialCard "Cara"],
    indicators := initialIndicators 3,
    prevDisabled := false, nextDisabled := false, liveRegion := "",
    nextTimerId := 1, intervals := [] }

/-- A settled three-card carousel sitting at index 2. -/
def carousel3 : Carousel := settleTransition (updateCarousel basePage3 2 false)

/-- A three-card carousel caught mid-transition. -/
def carouselT : Carousel := updateCarousel basePage3 1 true

/-! Section: Claims -/

lemma wrapIndex_eq_formula (index total : ℤ) (h2 : 2 ≤ total)
    (hlo : -1 ≤ index) (hhi : index ≤ total) :
    wrapIndex index total = ((index % total) + total) % total := by
  have houter : ∀ x : ℤ, (x + total) % total = x % total := by
    intro x
    simpa using Int.add_mul_emod_self_left x total 1
  unfold wrapIndex
  split_ifs with hneg hge
  · have hidx : index = -1 := by omega
    subst hidx
    rw [houter, Int.emod_emod_of_dvd _ dvd_rfl]
    have hshift : (-1 : ℤ) % total = (-1 + total) % total := (houter (-1)).symm
    rw [hshift, Int.emod_eq_of_lt (by omega) (by omega)]
    omega
  · have hidx : index = total := by omega
    subst hidx
    rw [houter, Int.emod_emod_of_dvd _ dvd_rfl, Int.emod_self]
  · rw [houter, Int.emod_emod_of_dvd _ dvd_rfl,
      Int.emod_eq_of_lt (by omega) (by omega)]

/-- C1 counterexample: with N = 3 cards, currentIndex = 2 and no
transition in progress, `navigate(5)` yields currentIndex 0 — not
`((5 % 3) + 3) % 3 = 2`, and not the 1 the claim's scenario names. -/
theorem navigateTo_formula_counterexample :
    carousel3.totalCards = 3 ∧ carousel3.currentIndex = 2 ∧
      carousel3.isTransitioning = false ∧
      (navigateTo carousel3 5 0).currentIndex = 0 ∧
      ((5 % 3 + 3) % 3 : ℤ) = 2 ∧
      (navigateTo carousel3 5 0).currentIndex ≠ ((5 % 3 + 3) % 3 : ℤ) ∧
      (navigateTo carousel3 5 0).currentIndex ≠ 1 := by
  decide

/-- C1 (amended): `navigate(i)` realizes `((i % N) + N) % N` only on the
single-wrap range `-1 ≤ i ≤ N`; outside it the code's one-step wrap
diverges from the modular formula (see the counterexample). -/
theorem navigateTo_formula_small_range (s : Carousel) (index now : ℤ)
    (h : s.isTransitioning = false) (h2 : 2 ≤ s.totalCards)
    (hlo : -1 ≤ index) (hhi : index ≤ s.totalCards) :
    (navigateTo s index now).currentIndex =
      ((index % s.totalCards) + s.totalCards) % s.totalCards := by
  rw [← wrapIndex_eq_formula index s.totalCards h2 hlo hhi]
  by_cases hne : wrapIndex index s.totalCards = s.currentIndex
  · have hnoop : navigateTo s index now = s := by
      simp [navigateTo, h, hne]
    rw [hnoop, ← hne]
  · simp [navigateTo, h, hne]

/-- C1 witness: on the three-card carousel at index 2, `navigate(3)`
lands on `((3 % 3) + 3) % 3 = 0`, the formula value for this in-range
target. -/
theorem navigateTo_formula_small_range_witness :
    (navigateTo carousel3 3 0).currentIndex = ((3 % 3 + 3) % 3 : ℤ) := by
  have h := navigateTo_formula_small_range carousel3 3 0 (by decide) (by decide)
    (by decide) (by decide)
  simpa using h

/-- C2: with no transition in progress, `navigate(i)` wraps its target
in a single step — any `i < 0` maps to `N-1`, any `i ≥ N` maps to `0`,
any in-range `i` maps to itself — and when the wrapped target equals the
current index the call leaves the state untouched; otherwise the wrapped
target becomes the current index. -/
theorem navigateTo_single_step_wrap (s : Carousel) (index now : ℤ)
    (h : s.isTransitioning = false) (h2 : 2 ≤ s.totalCards) :
    (index < 0 → wrapIndex index s.totalCards = s.totalCards - 1) ∧
    (s.totalCards ≤ index → wrapIndex index s.totalCards = 0) ∧
    (0 ≤ index → index < s.totalCards → wrapIndex index s.totalCards = index) ∧
    (wrapIndex index s.totalCards = s.currentIndex → navigateTo s index now = s) ∧
    (wrapIndex index s.totalCards ≠ s.currentIndex →
      (navigateTo s index now).currentIndex = wrapIndex index s.totalCards) := by
  refine ⟨?_, ?_, ?_, ?_, ?_⟩
  · intro hi; unfold wrapIndex; split_ifs <;> omega
  · intro hi; unfold wrapIndex; split_ifs <;> omega
  · intro hi hi2; unfold wrapIndex; split_ifs <;> omega
  · intro heq; simp [navigateTo, h, heq]
  · intro hne; simp [navigateTo, h, hne]

/-- C2 witness: on the two-card carousel, `navigate(5)` wraps to 0 (the
current index, so the call is a no-op) and `navigate(1)` both wraps to
and lands on 1; `navigate(-3)` wraps to `N - 1 = 1`. -/
theorem navigateTo_single_step_wrap_witness :
    wrapIndex 5 basePageW.totalCards = 0 ∧
      navigateTo basePageW 5 0 = basePageW ∧
      wrapIndex (-3) basePageW.totalCards = basePageW.totalCards - 1 ∧
      (navigateTo basePageW 1 0).currentIndex = wrapIndex 1 basePageW.totalCards := by
  refine ⟨(navigateTo_single_step_wrap basePageW 5 0 rfl (by decide)).2.1 (by decide),
    (navigateTo_single_step_wrap basePageW 5 0 rfl (by decide)).2.2.2.1 (by decide),
    (navigateTo_single_step_wrap basePageW (-3) 0 rfl (by decide)).1 (by decide),
    (navigateTo_single_step_wrap basePageW 1 0 rfl (by decide)).2.2.2.2 (by decide)⟩

/-- C3: while `isTransitioning` is set, `navigate` is a complete no-op:
the whole state — index, flags, timers, card and indicator markings —
is returned unchanged. -/
theorem navigateTo_transitioning_noop (s : Carousel) (index now : ℤ)
    (h : s.isTransitioning = true) : navigateTo s index now = s := by
  simp [navigateTo, h]

/-- C3 witness: the mid-transition three-card carousel ignores
`navigate(0)` entirely. -/
theorem navigateTo_transitioning_noop_witness :
    carouselT.isTransitioning = true ∧ navigateTo carouselT 0 123 = carouselT :=
  ⟨rfl, navigateTo_transitioning_noop carouselT 0 123 rfl⟩

/-- C4: in every state reachable from a successful initialization,
`currentIndex` lies in `[0, N)` and exactly one card carries the active
marker (active class set, not `aria-hidden`, `tabindex` 0); every
operation of the widget preserves this. -/
theorem carousel_active_invariant (p : Page) (now : ℤ) (s0 s : Carousel)
    (hinit : init p now = some s0)
    (hreach : Relation.ReflTransGen Step s0 s) :
    0 ≤ s.currentIndex ∧ s.currentIndex < s.totalCards ∧
      s.cards.countP cardActiveMarker = 1 := by
  have hinv : CarouselInv s := by
    induction hreach with
    | refl => exact init_inv p now s0 hinit
    | tail hab hbc ih => exact step_inv _ _ hbc ih
  exact ⟨hinv.2.2.1, hinv.2.2.2.1, hinv.2.2.2.2⟩

/-- C4 witness: the state `init` builds for the two-card page satisfies
the invariant. -/
theorem carousel_active_invariant_witness :
    0 ≤ carouselW.currentIndex ∧ carouselW.currentIndex < carouselW.totalCards ∧
      carouselW.cards.countP cardActiveMarker = 1 :=
  carousel_active_invariant pageW 0 carouselW carouselW (by decide)
    Relation.ReflTransGen.refl

/-- C5: `pauseAutoPlay` and `resumeAutoPlay` are idempotent — a second
pause changes nothing and leaves the timer cancelled, a second resume
changes nothing and leaves exactly one live interval. -/
theorem autoPlay_pause_resume_idempotent (s : Carousel) (t1 t2 : ℤ) :
    pauseAutoPlay (pauseAutoPlay s) = pauseAutoPlay s ∧
    resumeAutoPlay (resumeAutoPlay s t1) t2 = resumeAutoPlay s t1 ∧
    (s.isAutoPlaying = true → (pauseAutoPlay (pauseAutoPlay s)).autoPlayTimer = none) ∧
    (s.autoPlayTimer = none → s.intervals = [] →
      (resumeAutoPlay (resumeAutoPlay s t1) t2).intervals.length = 1) := by
  have hpause : pauseAutoPlay (pauseAutoPlay s) = pauseAutoPlay s := by
    by_cases hA : s.isAutoPlaying
    · simp [pauseAutoPlay, hA, clearIntervalList]
    · simp [pauseAutoPlay, hA]
  have hresume : resumeAutoPlay (resumeAutoPlay s t1) t2 = resumeAutoPlay s t1 := by
    by_cases hT : s.autoPlayTimer.isSome
    · simp [resumeAutoPlay, hT]
    · simp [resumeAutoPlay, hT]
  refine ⟨hpause, hresume, ?_, ?_⟩
  · intro hA
    rw [hpause]
    simp [pauseAutoPlay, hA]
  · intro h1 h2
    rw [hresume]
    simp [resumeAutoPlay, h1, h2]

/-- C5 witness: on the freshly initialized two-card carousel, pausing
twice equals pausing once with the timer cancelled, and resuming twice
from the paused state leaves exactly one live interval. -/
theorem autoPlay_pause_resume_idempotent_witness :
    pauseAutoPlay (pauseAutoPlay carouselW) = pauseAutoPlay carouselW ∧
    (pauseAutoPlay (pauseAutoPlay carouselW)).autoPlayTimer = none ∧
    (resumeAutoPlay (resumeAutoPlay (pauseAutoPlay carouselW) 7) 9).intervals.length = 1 :=
  ⟨(autoPlay_pause_resume_idempotent carouselW 7 9).1,
   (autoPlay_pause_resume_idempotent carouselW 7 9).2.2.1 (by decide),
   (autoPlay_pause_resume_idempotent (pauseAutoPlay carouselW) 7 9).2.2.2
     (by decide) (by decide)⟩

/-- C6: an index-changing `navigate` call at time `now` cancels the old
auto-play interval and schedules a fresh one whose first firing is a
full `AUTO_PLAY_INTERVAL` after `now` — never sooner. -/
theorem navigateTo_resets_autoplay (s : Carousel) (index now : ℤ)
    (h : s.isTransitioning = false) (hA : s.isAutoPlaying = true)
    (hch : wrapIndex index s.totalCards ≠ s.currentIndex) :
    (navigateTo s index now).autoPlayTimer = some s.nextTimerId ∧
    (navigateTo s index now).intervals =
      clearIntervalList s.autoPlayTimer s.intervals ++
        [{ id := s.nextTimerId, nextFire := now + AUTO_PLAY_INTERVAL,
           period := AUTO_PLAY_INTERVAL }] ∧
    (∀ iv ∈ clearIntervalList s.autoPlayTimer s.intervals,
      s.autoPlayTimer ≠ some iv.id) := by
  have hnav : navigateTo s index now =
      resetAutoPlay (updateCarousel s (wrapIndex index s.totalCards) true) now := by
    simp [navigateTo, h, hch]
  refine ⟨?_, ?_, ?_⟩
  · rw [hnav]
    simp [resetAutoPlay, pauseAutoPlay, resumeAutoPlay, hA]
  · rw [hnav]
    simp [resetAutoPlay, pauseAutoPlay, resumeAutoPlay, hA]
  · cases hT : s.autoPlayTimer with
    | none => simp
    | some t =>
        intro iv hiv
        simp only [clearIntervalList, List.mem_filter, decide_eq_true_eq] at hiv
        exact fun hEq => hiv.2 (Option.some.inj hEq).symm

/-- C6 witness: on the settled two-card carousel (timer id 1 live),
`navigate(1)` at time 777 cancels interval 1 and schedules interval 2
to fire at `777 + 5000`. -/
theorem navigateTo_resets_autoplay_witness :
    (navigateTo (settleTransition carouselW) 1 777).autoPlayTimer =
        some (settleTransition carouselW).nextTimerId ∧
      (navigateTo (settleTransition carouselW) 1 777).intervals =
        clearIntervalList (settleTransition carouselW).autoPlayTimer
            (settleTransition carouselW).intervals ++
          [{ id := (settleTransition carouselW).nextTimerId, nextFire := 777 + AUTO_PLAY_INTERVAL,
             period := AUTO_PLAY_INTERVAL }] :=
  ⟨(navigateTo_resets_autoplay (settleTransition carouselW) 1 777
      (by decide) (by decide) (by decide)).1,
   (navigateTo_resets_autoplay (settleTransition carouselW) 1 777
      (by decide) (by decide) (by decide)).2.1⟩

/-- C7: when the testimonials container is absent, or the grid is
absent, or fewer than two cards are found, `init` performs no mutation
at all (and raises nothing): it returns through an early exit, leaving
the static layout. -/
theorem init_missing_dom_noop (p : Page) (now : ℤ)
    (h : p.hasContainer = false ∨ p.hasGrid = false ∨ p.cardNames.length < 2) :
    init p now = none := by
  unfold init
  split_ifs with a b c
  · rfl
  · rfl
  · rfl
  · exfalso
    rcases h with h | h | h
    · simp [h] at a
    · simp [h] at b
    · omega

/-- C7 witness: a page whose grid holds a single card is left alone. -/
theorem init_missing_dom_noop_witness :
    init { hasContainer := true, hasGrid := true, cardNames := ["Solo"] } 0 = none :=
  init_missing_dom_noop _ 0 (Or.inr (Or.inr (by decide)))

lemma handleKeyDown_isAutoPlaying (s : Carousel) (k : Key) (now : ℤ) :
    (handleKeyDown s k now).isAutoPlaying = s.isAutoPlaying := by
  unfold handleKeyDown
  split
  · rfl
  · cases k <;> simp [navigateTo_isAutoPlaying]

lemma handleTouchStart_isAutoPlaying (s : Carousel) (touches : List (ℤ × ℤ)) (now : ℤ) :
    (handleTouchStart s touches now).isAutoPlaying = s.isAutoPlaying := by
  unfold handleTouchStart
  split <;> rfl

lemma handleTouchEnd_isAutoPlaying (s : Carousel) (endX endY now : ℤ) :
    (handleTouchEnd s endX endY now).isAutoPlaying = s.isAutoPlaying := by
  unfold handleTouchEnd
  split
  · rfl
  · dsimp only
    cases handleTouchEndCall s endX endY now <;>
      simp [navigateTo_isAutoPlaying]

lemma step_preserves_isAutoPlaying (s s' : Carousel) (hstep : Step s s')
    (h : s.isAutoPlaying = true) : s'.isAutoPlaying = true := by
  cases hstep with
  | nav index now => rw [navigateTo_isAutoPlaying]; exact h
  | settle => simpa using h
  | pause => simpa using h
  | resume now => simpa using h
  | start now => simp
  | resize => simpa using h
  | prevClick now => unfold handlePrevClick; rw [navigateTo_isAutoPlaying]; exact h
  | nextClick now => unfold handleNextClick; rw [navigateTo_isAutoPlaying]; exact h
  | indicatorClick idx? now =>
      cases idx? with
      | some index =>
          show (navigateTo s index now).isAutoPlaying = true
          rw [navigateTo_isAutoPlaying]; exact h
      | none => exact h
  | key k now => rw [handleKeyDown_isAutoPlaying]; exact h
  | touchStart touches now => rw [handleTouchStart_isAutoPlaying]; exact h
  | touchEnd endX endY now => rw [handleTouchEnd_isAutoPlaying]; exact h

/-- C9: once `startAutoPlay` has set it, `isAutoPlaying` stays true
under every operation — `pauseAutoPlay` cancels the timer but never
clears the flag — so any later `startAutoPlay` call is a no-op and the
flag does not track whether a timer is running. -/
theorem isAutoPlaying_sticky (s s' : Carousel) (now : ℤ) :
    (startAutoPlay s now).isAutoPlaying = true ∧
    (pauseAutoPlay s).isAutoPlaying = s.isAutoPlaying ∧
    (s.isAutoPlaying = true → startAutoPlay s now = s) ∧
    (s.isAutoPlaying = true → Relation.ReflTransGen Step s s' →
      s'.isAutoPlaying = true) := by
  refine ⟨by simp, by simp, ?_, ?_⟩
  · intro hA
    simp [startAutoPlay, hA]
  · intro hA hreach
    induction hreach with
    | refl => exact hA
    | tail hab hbc ih => exact step_preserves_isAutoPlaying _ _ hbc ih

/-- C9 witness: on the freshly initialized two-card carousel the flag
is set, a repeat `startAutoPlay` is a no-op, and after `pauseAutoPlay`
(timer cancelled) the flag is still true. -/
theorem isAutoPlaying_sticky_witness :
    startAutoPlay carouselW 99 = carouselW ∧
      (pauseAutoPlay carouselW).isAutoPlaying = true :=
  ⟨(isAutoPlaying_sticky carouselW carouselW 99).2.2.1 (by decide),
   (isAutoPlaying_sticky carouselW (pauseAutoPlay carouselW) 99).2.2.2 (by decide)
     (Relation.ReflTransGen.single (Step.pause carouselW))⟩

/-! Section: Swipe-angle evaluation lemmas -/

lemma swipeAngle_pos_horizontal (dx : ℤ) (h : 0 ≤ (dx : ℝ)) :
    swipeAngle dx 0 = 0 := by
  unfold swipeAngle
  have hz : (⟨(dx : ℝ), ((0 : ℤ) : ℝ)⟩ : ℂ) = ((dx : ℝ) : ℂ) := by
    apply Complex.ext <;> simp
  rw [hz, Complex.arg_ofReal_of_nonneg h]
  simp

lemma swipeAngle_neg_horizontal (dx : ℤ) (h : (dx : ℝ) < 0) :
    swipeAngle dx 0 = 180 := by
  unfold swipeAngle
  have hz : (⟨(dx : ℝ), ((0 : ℤ) : ℝ)⟩ : ℂ) = ((dx : ℝ) : ℂ) := by
    apply Complex.ext <;> simp
  rw [hz, Complex.arg_ofReal_of_neg h, abs_of_pos Real.pi_pos,
    mul_comm, mul_div_assoc, div_self Real.pi_ne_zero, mul_one]

lemma isHorizontalSwipe_pos (dx : ℤ) (h : 0 ≤ (dx : ℝ)) :
    isHorizontalSwipe dx 0 :=
  Or.inl (by rw [swipeAngle_pos_horizontal dx h]; norm_num [TOUCH_ANGLE_THRESHOLD])

lemma isHorizontalSwipe_neg (dx : ℤ) (h : (dx : ℝ) < 0) :
    isHorizontalSwipe dx 0 :=
  Or.inr (by rw [swipeAngle_neg_horizontal dx h]; norm_num [TOUCH_ANGLE_THRESHOLD])

/-- C8 counterexample: a completed single-touch gesture that started at
clientX = 0 (state exactly as `handleTouchStart` records it) satisfies
every acceptance condition — near-zero angle, 80 px > 50 px, 200 ms <
500 ms — yet touch-end issues no navigation at all, because the zero
start coordinate trips the cleared-gesture guard.  So the claimed
"if and only if" fails as stated. -/
theorem swipe_accept_iff_counterexample :
    basePageW.touchStartX = 0 ∧ basePageW.isTransitioning = false ∧
      swipeAccepted 80 0 200 ∧
      handleTouchEndCall basePageW 80 0 200 = none ∧
      handleTouchEnd basePageW 80 0 200 = basePageW := by
  refine ⟨rfl, rfl,
    ⟨isHorizontalSwipe_pos 80 (by norm_num), by decide, by decide⟩, ?_, ?_⟩
  · simp [handleTouchEndCall, basePageW]
  · simp [handleTouchEnd, basePageW]

/-- C8 (amended): for every completed single-touch gesture whose
recorded start clientX is nonzero, touch-end issues a navigation iff
the swipe angle is within the threshold, the horizontal displacement
exceeds the minimum distance, and the elapsed time is under the
maximum; an accepted swipe targets `currentIndex - 1` on positive
displacement and `currentIndex + 1` on negative displacement. -/
theorem swipe_accept_iff (s : Carousel) (endX endY now : ℤ)
    (h : s.touchStartX ≠ 0) :
    (handleTouchEndCall s endX endY now ≠ none ↔
      swipeAccepted (endX - s.touchStartX) (endY - s.touchStartY)
        (now - s.touchStartTime)) ∧
    (swipeAccepted (endX - s.touchStartX) (endY - s.touchStartY)
        (now - s.touchStartTime) →
      handleTouchEndCall s endX endY now =
        some (if 0 < endX - s.touchStartX then s.currentIndex - 1
              else s.currentIndex + 1)) := by
  unfold handleTouchEndCall
  rw [if_neg h]
  dsimp only
  by_cases hacc : swipeAccepted (endX - s.touchStartX) (endY - s.touchStartY)
      (now - s.touchStartTime)
  · rw [if_pos hacc]
    refine ⟨?_, ?_⟩
    · constructor
      · intro _; exact hacc
      · intro _; split_ifs <;> simp
    · intro _
      split_ifs <;> rfl
  · rw [if_neg hacc]
    refine ⟨?_, ?_⟩
    · simp [hacc]
    · intro hc; exact absurd hc hacc

/-- A three-card carousel with a recorded touch start at
(100, 10) at time 1000. -/
def carouselTouch : Carousel :=
  { basePage3 with touchStartX := 100, touchStartY := 10, touchStartTime := 1000 }

/-- C8 witness: from start x = 100, an 80 px leftward swipe in 200 ms
(end x = 20) navigates to `currentIndex + 1`, while a 30 px swipe
(end x = 70) does not navigate. -/
theorem swipe_accept_iff_witness :
    handleTouchEndCall carouselTouch 20 10 1200 =
        some (carouselTouch.currentIndex + 1) ∧
      handleTouchEndCall carouselTouch 70 10 1200 = none := by
  have e1 : (20 : ℤ) - carouselTouch.touchStartX = -80 := by decide
  have e2 : (10 : ℤ) - carouselTouch.touchStartY = 0 := by decide
  have e3 : (1200 : ℤ) - carouselTouch.touchStartTime = 200 := by decide
  have hacc : swipeAccepted ((20 : ℤ) - carouselTouch.touchStartX)
      ((10 : ℤ) - carouselTouch.touchStartY)
      ((1200 : ℤ) - carouselTouch.touchStartTime) := by
    rw [e1, e2, e3]
    exact ⟨isHorizontalSwipe_neg (-80) (by norm_num), by decide, by decide⟩
  constructor
  · have h1 := (swipe_accept_iff carouselTouch 20 10 1200 (by decide)).2 hacc
    rw [h1, e1]
    norm_num
  · have h2 := (swipe_accept_iff carouselTouch 70 10 1200 (by decide)).1
    by_contra hc
    have hne : handleTouchEndCall carouselTouch 70 10 1200 ≠ none := hc
    have habs := h2.mp hne
    rw [show (70 : ℤ) - carouselTouch.touchStartX = -30 by decide] at habs
    exact absurd habs.2.1 (by decide)

/-- C10: a single-touch gesture whose starting clientX is exactly 0 can
never trigger navigation from touch-end — whatever the displacement,
speed or angle — because the `!state.touchStartX` guard cannot tell the
zero coordinate from the cleared-gesture sentinel.  The handler returns
with the whole state untouched. -/
theorem touchStartX_zero_blocks (s : Carousel) (endX endY now : ℤ)
    (h : s.touchStartX = 0) :
    handleTouchEndCall s endX endY now = none ∧
    handleTouchEnd s endX endY now = s := by
  constructor
  · simp [handleTouchEndCall, h]
  · simp [handleTouchEnd, h]

/-- C10 witness: a 300 px fast horizontal swipe that began at
clientX = 0 produces no navigation and no state change. -/
theorem touchStartX_zero_blocks_witness :
    basePageW.touchStartX = 0 ∧
      handleTouchEndCall basePageW 300 0 100 = none ∧
      handleTouchEnd basePageW 300 0 100 = basePageW :=
  ⟨rfl, (touchStartX_zero_blocks basePageW 300 0 100 rfl).1,
    (touchStartX_zero_blocks basePageW 300 0 100 rfl).2⟩
